import Mathlib

/-!
Shallow embedding of the orchestration core of the figma-export backup
system (src/src/core/figma-backup.js, class FigmaBackupSystem).

External collaborators (the Figma API wrapper, the Dropbox / Notion /
Obsidian clients, the logger, the notification service, config loading
and report file persistence) live outside the orchestrator; they are
modelled as oracles in an `Env` record, following the capability
contracts: readiness probes are total (they report a boolean and never
raise), per-target downloads and per-destination sync calls may either
return a value or raise an error message, and report persistence may
fail.  The notification service swallows its own errors internally
(its `notify` wraps everything in try/catch), so it has no observable
effect on the run's results and is not modelled.

Mutation of `this.results` across the stages of `run` is modelled by
explicit state passing; the value of `this.results` when `run` throws
is part of the outcome, since the instance remains observable.
-/

namespace FigmaBackup

/-- Return value of `figma.downloadFromUrl`: `{files, outputPath}`.
`outputPath` may be absent, hence `Option`. -/
structure DlOk where
  files : List String
  outputPath : Option String
deriving Repr, DecidableEq

/-- One entry of `this.results.downloads` (pushed by `downloadFigmaFiles`).
The success object carries `files` and `output_path`; the failure object
carries `error`.  Absent JS keys are `none`. -/
structure Download where
  url : String
  success : Bool
  files : Option (List String)
  output_path : Option String
  error : Option String
  timestamp : String
deriving Repr, DecidableEq

/-- One entry of `this.results.uploads` (pushed by `uploadToDropbox`). -/
structure Upload where
  source : Option String
  success : Bool
  remoteFolder : Option String
  timestamp : String
  error : Option String
deriving Repr, DecidableEq

/-- One entry of `this.results.syncs` (returned by `updateNotionDatabase`
or `syncObsidianVault`). -/
structure Sync where
  type : String
  success : Bool
  details : Option String
  error : Option String
  timestamp : String
deriving Repr, DecidableEq

/-- Return value of `dropbox.syncBackupResults` when it does not throw. -/
structure DropboxRes where
  success : Bool
  remoteFolder : Option String
  error : Option String
deriving Repr, DecidableEq

/-- Return value of `notion.syncBackupResults` / `obsidian.syncBackupResults`
when they do not throw: a `success` flag and an optional `results` array,
of which only the length is read (`syncResult.results?.length || 0`). -/
structure DestRes where
  success : Bool
  resultsLen : Option Nat
deriving Repr, DecidableEq

/-- One value of `summary.services`: sync entries populate
`success`/`details`/`error`; the dropbox entry populates
`success`/`uploaded_count`/`total_count`.  Absent keys are `none`. -/
structure ServiceStatus where
  success : Bool
  details : Option String
  error : Option String
  uploaded_count : Option Nat
  total_count : Option Nat
deriving Repr, DecidableEq

/-- The object built by `generateSummary`.  `services` is a JS object
keyed by service name, built by inserting distinct keys in order, so an
ordered association list is a faithful model. -/
structure Summary where
  execution_id : String
  total_targets : Nat
  successful_downloads : Nat
  failed_downloads : Nat
  total_files : Nat
  duration : String
  duration_ms : Option Int
  services : List (String × ServiceStatus)
  errors : List String
deriving Repr, DecidableEq

/-- `this.results`, as set up in the constructor and mutated by `run`. -/
structure Results where
  execution_id : String
  start_time : Int
  end_time : Option Int
  duration : Option Int
  success : Bool
  targets : List String
  downloads : List Download
  uploads : List Upload
  syncs : List Sync
  errors : List String
  summary : Option Summary
deriving Repr, DecidableEq

/-- One entry of the list built by `validateServices`:
`{service, valid, ...}` (only these two fields are read). -/
structure Validation where
  service : String
  valid : Bool
deriving Repr, DecidableEq

/-- The environment of one run: configuration plus the oracles standing
for the external capabilities.  `download i` is the outcome of the
`i`-th call to `figma.downloadFromUrl`; `dropboxSync k` the outcome of
the `k`-th call to `dropbox.syncBackupResults`; `notionSync` and
`obsidianSync` the (single-call) outcomes of the other two
destinations; `reportPersist` the outcome of writing the report file.
`humanize` stands for `moment.duration(x).humanize()`, a pure function
of the millisecond duration.  `initResult` is the outcome of
`this.initialize()` (config loading and service construction). -/
structure Env where
  executionId : String
  startTime : Int
  endTime : Int
  now : String
  humanize : Option Int → String
  initResult : Except String Unit
  targets : List String
  dropboxEnabled : Bool
  notionEnabled : Bool
  obsidianEnabled : Bool
  figmaValid : Bool
  dropboxValid : Bool
  notionValid : Bool
  obsidianValid : Bool
  download : Nat → Except String DlOk
  dropboxSync : Nat → Except String DropboxRes
  notionSync : Except String DestRes
  obsidianSync : Except String DestRes
  reportPersist : Except String String

/-- `this.results` as initialised in the constructor. -/
def initialResults (env : Env) : Results :=
  { execution_id := env.executionId
    start_time := env.startTime
    end_time := none
    duration := none
    success := false
    targets := []
    downloads := []
    uploads := []
    syncs := []
    errors := []
    summary := none }

/-- `validateServices`: probes Figma always, then each enabled
destination, and ANDs the `valid` flags.  The probes follow the
capability contract (`probeReadiness` never raises), so the method's
catch branch is unreachable and is not modelled. -/
def validateServices (env : Env) : Bool × List Validation :=
  let vs : List Validation :=
    [⟨"Figma", env.figmaValid⟩]
      ++ (if env.dropboxEnabled then [⟨"Dropbox", env.dropboxValid⟩] else [])
      ++ (if env.notionEnabled then [⟨"Notion", env.notionValid⟩] else [])
      ++ (if env.obsidianEnabled then [⟨"Obsidian", env.obsidianValid⟩] else [])
  (vs.all (fun v => v.valid), vs)

/-- The message of the error thrown by `run` when validation fails
(line 172); a fixed string that does not mention any capability name. -/
def validationFailMsg : String := "服務驗證失敗，無法繼續執行備份"

/-- One iteration of the `downloadFigmaFiles` loop: the result pushed
for the target at position `i`, determined solely by that target's own
call outcome (try branch on success, catch branch on failure). -/
def downloadOne (env : Env) (i : Nat) (url : String) : Download :=
  match env.download i with
  | .ok r => ⟨url, true, some r.files, r.outputPath, none, env.now⟩
  | .error msg => ⟨url, false, none, none, some msg, env.now⟩

/-- The `downloadFigmaFiles` loop from position `i` on. -/
def downloadGo (env : Env) : Nat → List String → List Download
  | _, [] => []
  | i, url :: rest => downloadOne env i url :: downloadGo env (i + 1) rest

/-- `downloadFigmaFiles(urls)`: one result per url, in order; a failed
target is caught locally and the loop continues. -/
def downloadFigmaFiles (env : Env) (urls : List String) : List Download :=
  downloadGo env 0 urls

/-- The guard `download.success && download.output_path` of
`uploadToDropbox`: JS truthiness makes a missing (`none`) or empty
(`some ""`) `output_path` falsy. -/
def sendable (d : Download) : Bool :=
  d.success && (match d.output_path with
                | none => false
                | some s => !(s == ""))

/-- The upload entry pushed on a non-throwing `syncBackupResults` call. -/
def mkUpload (d : Download) (r : DropboxRes) (now : String) : Upload :=
  ⟨d.output_path, r.success, r.remoteFolder, now, r.error⟩

/-- The single entry returned by `uploadToDropbox`'s catch branch. -/
def failUpload (msg now : String) : Upload :=
  ⟨none, false, none, now, some msg⟩

/-- The `uploadToDropbox` loop.  `k` counts the calls made to
`dropbox.syncBackupResults`; `ups` is the accumulated `uploads` array
and `calls` the batches the destination has received so far (each call
carries the singleton batch `[download]`).  The try/catch wraps the
whole loop, so the first throwing call makes the method return the
single-element failed array, discarding `ups`. -/
def uploadGo (env : Env) :
    List Download → Nat → List Upload → List (List Download) →
    List Upload × List (List Download)
  | [], _, ups, calls => (ups, calls)
  | d :: rest, k, ups, calls =>
    if sendable d then
      match env.dropboxSync k with
      | .error msg => ([failUpload msg env.now], calls ++ [[d]])
      | .ok r =>
        uploadGo env rest (k + 1) (ups ++ [mkUpload d r env.now]) (calls ++ [[d]])
    else
      uploadGo env rest k ups calls

/-- `uploadToDropbox(figmaDownloads)`: the resulting `uploads` array,
paired with the list of batches actually sent to the destination. -/
def uploadToDropbox (env : Env) (downloads : List Download) :
    List Upload × List (List Download) :=
  uploadGo env downloads 0 [] []

/-- `updateNotionDatabase(results)`: one sync entry; a throwing
`syncBackupResults` is caught and recorded as a failed entry with the
error message. -/
def updateNotionDatabase (env : Env) : Sync :=
  match env.notionSync with
  | .ok r =>
    ⟨"notion", r.success,
      some ("更新了 " ++ toString (r.resultsLen.getD 0) ++ " 筆記錄"),
      none, env.now⟩
  | .error msg => ⟨"notion", false, none, some msg, env.now⟩

/-- `syncObsidianVault(results)`: same shape as the Notion sync. -/
def syncObsidianVault (env : Env) : Sync :=
  match env.obsidianSync with
  | .ok r =>
    ⟨"obsidian", r.success,
      some ("同步了 " ++ toString (r.resultsLen.getD 0) ++ " 個檔案"),
      none, env.now⟩
  | .error msg => ⟨"obsidian", false, none, some msg, env.now⟩

/-- The `services` value a sync entry contributes to the summary. -/
def syncStatus (s : Sync) : ServiceStatus :=
  ⟨s.success, s.details, s.error, none, none⟩

/-- `generateSummary()`: a pure function of `this.executionId`,
`moment`'s humanizer and the accumulated `this.results`. -/
def generateSummary (env : Env) (r : Results) : Summary :=
  let base : List (String × ServiceStatus) :=
    r.syncs.map (fun s => (s.type, syncStatus s))
  let services : List (String × ServiceStatus) :=
    if r.uploads.length > 0 then
      base ++ [("dropbox",
        ⟨r.uploads.any (fun u => u.success), none, none,
          some ((r.uploads.filter (fun u => u.success)).length),
          some r.uploads.length⟩)]
    else base
  { execution_id := env.executionId
    total_targets := r.targets.length
    successful_downloads := (r.downloads.filter (fun d => d.success)).length
    failed_downloads := (r.downloads.filter (fun d => !d.success)).length
    total_files :=
      r.downloads.foldl (fun sum d => sum + (d.files.map List.length).getD 0) 0
    duration := env.humanize r.duration
    duration_ms := r.duration
    services := services
    errors := r.errors }

/-- Line 198 of `run`: `this.results.summary = this.generateSummary()`. -/
def aggregateStep (env : Env) (r : Results) : Results :=
  { r with summary := some (generateSummary env r) }

/-- `run`'s catch block on `this.results`: sets `success = false` and
pushes the thrown message onto `errors` before rethrowing. -/
def catchFail (r : Results) (msg : String) : Results :=
  { r with success := false, errors := r.errors ++ [msg] }

/-- Observable interactions of one run with the sync destinations:
the batches sent to Dropbox, and the `results` snapshot passed to
Notion (line 186, before its sync entry is pushed) and to Obsidian
(line 191, after Notion's entry is pushed). -/
structure Trace where
  dropboxCalls : List (List Download)
  notionArg : Option Results
  obsidianArg : Option Results
deriving Repr, DecidableEq

/-- Outcome of `run()`: the rethrown error message if the method threw
(`none` when it returned normally), the final state of `this.results`,
and the destination-interaction trace. -/
structure RunOutcome where
  thrown : Option String
  results : Results
  trace : Trace
deriving Repr, DecidableEq

/-- The value of `this.results` at the end of the happy path of `run`
(lines 176-198): targets and stage outputs recorded, `end_time` /
`duration` set, `success := downloads.some(d => d.success)`, and the
summary computed by `aggregateStep`. -/
def pipelineResults (env : Env) : Results :=
  let downloads := downloadFigmaFiles env env.targets
  let ups := if env.dropboxEnabled then (uploadToDropbox env downloads).1 else []
  let syncs :=
    (if env.notionEnabled then [updateNotionDatabase env] else [])
      ++ (if env.obsidianEnabled then [syncObsidianVault env] else [])
  let r6 : Results :=
    { initialResults env with
        targets := env.targets
        downloads := downloads
        uploads := ups
        syncs := syncs
        end_time := some env.endTime
        duration := some (env.endTime - env.startTime)
        success := downloads.any (fun d => d.success) }
  aggregateStep env r6

/-- The destination-interaction trace of the happy path of `run`. -/
def pipelineTrace (env : Env) : Trace :=
  let downloads := downloadFigmaFiles env env.targets
  let r3 : Results :=
    { initialResults env with
        targets := env.targets
        downloads := downloads
        uploads :=
          if env.dropboxEnabled then (uploadToDropbox env downloads).1 else [] }
  let r4 : Results :=
    if env.notionEnabled then
      { r3 with syncs := r3.syncs ++ [updateNotionDatabase env] }
    else r3
  ⟨if env.dropboxEnabled then (uploadToDropbox env downloads).2 else [],
    if env.notionEnabled then some r3 else none,
    if env.obsidianEnabled then some r4 else none⟩

/-- `run()` (lines 162-218).  Construction (`initialize`) failure and
validation failure hit the catch block before any stage runs; on the
happy path the stages execute in order and `saveExecutionReport`'s
persistence failure is rethrown (line 435) into the same catch block,
which marks the run failed and rethrows (lines 210-217). -/
def run (env : Env) : RunOutcome :=
  match env.initResult with
  | .error msg => ⟨some msg, catchFail (initialResults env) msg, ⟨[], none, none⟩⟩
  | .ok _ =>
    if (validateServices env).1 then
      match env.reportPersist with
      | .error msg => ⟨some msg, catchFail (pipelineResults env) msg, pipelineTrace env⟩
      | .ok _ => ⟨none, pipelineResults env, pipelineTrace env⟩
    else
      ⟨some validationFailMsg, catchFail (initialResults env) validationFailMsg,
        ⟨[], none, none⟩⟩

/-! Concrete environments used by the counterexamples and witnesses. -/

/-- A fully healthy run: all destinations enabled and valid, two targets
that both download successfully, all syncs succeed, report persists. -/
def baseEnv : Env :=
  { executionId := "exec-1"
    startTime := 0
    endTime := 100
    now := "t0"
    humanize := fun _ => "a few seconds"
    initResult := .ok ()
    targets := ["https://figma/A", "https://figma/B"]
    dropboxEnabled := true
    notionEnabled := true
    obsidianEnabled := true
    figmaValid := true
    dropboxValid := true
    notionValid := true
    obsidianValid := true
    download := fun _ => .ok ⟨["f1", "f2"], some "/backups/out"⟩
    dropboxSync := fun _ => .ok ⟨true, some "/remote", none⟩
    notionSync := .ok ⟨true, some 1⟩
    obsidianSync := .ok ⟨true, some 1⟩
    reportPersist := .ok "/reports/r.json" }

/-- Healthy pipeline whose report persistence fails. -/
def envC1 : Env := { baseEnv with reportPersist := .error "EACCES: reports dir" }

/-- Healthy pipeline whose report persistence fails (C2 instance). -/
def envC2 : Env := { baseEnv with reportPersist := .error "ENOSPC: disk full" }

/-- Pipeline in which every download fails. -/
def envAllFail : Env := { baseEnv with download := fun _ => .error "boom" }

/-- Pipeline in which target 0 fails and target 1 succeeds. -/
def envMixed : Env :=
  { baseEnv with
      download := fun i =>
        if i == 0 then .error "not found" else .ok ⟨["f1"], some "/backups/out"⟩ }

/-! Counterexamples for the corrected claims. -/

/-- Claim C1 counterexample: in `envC1` both downloads succeed and
report persistence fails; the failure is recorded in `errors`, but
`success` does not remain equal to "at least one download succeeded" —
the catch block of `run` sets it to `false`. -/
theorem C1_counterexample :
    (run envC1).results.errors = ["EACCES: reports dir"] ∧
    (run envC1).results.downloads.any (fun d => d.success) = true ∧
    (run envC1).results.success = false := by decide

/-- Claim C2 counterexample: in `envC2` the download stage has executed
(two results were recorded), yet the run does not terminate in Done —
`saveExecutionReport`'s failure is rethrown out of `run`. -/
theorem C2_counterexample :
    (run envC2).results.downloads.length = 2 ∧
    (run envC2).thrown = some "ENOSPC: disk full" := by decide

/-- Claim C3 counterexample: failing the Dropbox probe and failing the
Notion probe leave identical, nonempty error lists — the recorded entry
is the fixed generic message, so it cannot name which capability failed
(the names reach only the logger). Downloads and syncs do stay empty. -/
theorem C3_counterexample :
    (run { baseEnv with dropboxValid := false }).results.errors =
      (run { baseEnv with notionValid := false }).results.errors ∧
    (run { baseEnv with dropboxValid := false }).results.errors ≠ [] ∧
    (run { baseEnv with dropboxValid := false }).results.downloads = [] ∧
    (run { baseEnv with dropboxValid := false }).results.syncs = [] := by decide

/-- Claim C6 counterexample: with two successful downloads, Dropbox is
invoked twice with singleton batches, not once with the whole batch;
with no successful download, Dropbox is invoked zero times instead of
once with an empty batch; and the Notion destination receives the full
results object, whose downloads include a failed entry. -/
theorem C6_counterexample :
    (run baseEnv).trace.dropboxCalls.length = 2 ∧
    (run envAllFail).trace.dropboxCalls = [] ∧
    (run envAllFail).results.uploads = [] ∧
    ((run envMixed).trace.notionArg.map
      (fun r => r.downloads.any (fun d => !d.success))) = some true := by decide

/-! Download stage lemmas. -/

lemma downloadGo_length (env : Env) :
    ∀ (i : Nat) (urls : List String),
      (downloadGo env i urls).length = urls.length := by
  intro i urls
  induction urls generalizing i with
  | nil => rfl
  | cons url rest ih => simp [downloadGo, ih]

lemma downloadFigmaFiles_length (env : Env) (urls : List String) :
    (downloadFigmaFiles env urls).length = urls.length :=
  downloadGo_length env 0 urls

lemma downloadGo_get (env : Env) :
    ∀ (urls : List String) (i j : Nat) (h : j < urls.length),
      (downloadGo env i urls).get ⟨j, (downloadGo_length env i urls).symm ▸ h⟩ =
        downloadOne env (i + j) (urls.get ⟨j, h⟩) := by
  intro urls
  induction urls with
  | nil => intro i j h; exact absurd h (Nat.not_lt_zero j)
  | cons url rest ih =>
    intro i j h
    cases j with
    | zero => simp [downloadGo]
    | succ j =>
      have hj : j < rest.length := Nat.lt_of_succ_lt_succ h
      have := ih (i + 1) j hj
      simp only [downloadGo, List.get_cons_succ, List.length_cons]
      rw [this]
      congr 1
      omega

/-- Claim C4: the download stage produces exactly one result per
target, in input order, and the result at position `i` is the one
produced from target `i`'s own call outcome alone (`downloadOne`), so a
failure at one target cannot stop or change the processing of any
other target. -/
theorem C4_download_per_target (env : Env) (urls : List String)
    (i : Nat) (h : i < urls.length) :
    (downloadFigmaFiles env urls).length = urls.length ∧
    (downloadFigmaFiles env urls).get
        ⟨i, (downloadFigmaFiles_length env urls).symm ▸ h⟩ =
      downloadOne env i (urls.get ⟨i, h⟩) := by
  refine ⟨downloadFigmaFiles_length env urls, ?_⟩
  have := downloadGo_get env urls 0 i h
  simpa [downloadFigmaFiles] using this

/-- Witness for C4: in `envMixed` target 0 fails, yet target 1 is still
processed and its recorded entry is exactly target 1's own outcome. -/
theorem C4_download_per_target_witness :
    (downloadFigmaFiles envMixed ["https://figma/A", "https://figma/B"]).length = 2 ∧
    (downloadFigmaFiles envMixed ["https://figma/A", "https://figma/B"]).get
        ⟨1, by decide⟩ =
      downloadOne envMixed 1 "https://figma/B" := by
  have := C4_download_per_target envMixed ["https://figma/A", "https://figma/B"] 1
    (by decide)
  exact ⟨this.1, this.2⟩

/-! Amended run-level claims. -/

/-- Claim C1 (amended): if the run reaches the reporting step and
report persistence fails, the failure message is appended to the run's
errors list, but `success` does not stay equal to the download outcome:
the catch handler sets `success` to `false` and the run rethrows the
persistence error. -/
theorem C1_amended (env : Env) (msg : String)
    (hinit : env.initResult = .ok ())
    (hval : (validateServices env).1 = true)
    (hrep : env.reportPersist = .error msg) :
    (run env).thrown = some msg ∧
    (run env).results.errors = [msg] ∧
    (run env).results.success = false := by
  simp [run, hinit, hval, hrep, catchFail, pipelineResults, aggregateStep,
    initialResults]

/-- Witness for C1 (amended), at `envC1`. -/
theorem C1_amended_witness :
    (run envC1).thrown = some "EACCES: reports dir" ∧
    (run envC1).results.errors = ["EACCES: reports dir"] ∧
    (run envC1).results.success = false :=
  C1_amended envC1 "EACCES: reports dir" rfl (by decide) rfl

/-- Claim C2 (amended): once downloading begins the run reaches Done
provided report persistence succeeds — even if every target failed; the
terminal Failed state is reachable from Init, from Validating, and also
from the Reporting phase when report persistence fails. -/
theorem C2_amended (env : Env) (p : String)
    (hinit : env.initResult = .ok ())
    (hval : (validateServices env).1 = true)
    (hrep : env.reportPersist = .ok p) :
    (run env).thrown = none := by
  simp [run, hinit, hval, hrep]

/-- Witness for C2 (amended): `envAllFail` has every download failing,
yet the run returns normally. -/
theorem C2_amended_witness : (run envAllFail).thrown = none :=
  C2_amended envAllFail "/reports/r.json" rfl (by decide) rfl

/-- Claim C3 (amended): if any enabled capability's readiness probe
reports invalid, the run aborts before any download or sync — the
downloads, uploads and syncs sequences stay empty — and the errors list
holds the single fixed generic validation-failure message (the failing
capability names are only logged, not recorded in `errors`). -/
theorem C3_amended (env : Env)
    (hinit : env.initResult = .ok ())
    (hval : (validateServices env).1 = false) :
    (run env).thrown = some validationFailMsg ∧
    (run env).results.downloads = [] ∧
    (run env).results.uploads = [] ∧
    (run env).results.syncs = [] ∧
    (run env).results.errors = [validationFailMsg] := by
  simp [run, hinit, hval, catchFail, initialResults]

/-- Witness for C3 (amended), with the Dropbox probe failing. -/
theorem C3_amended_witness :
    (run { baseEnv with dropboxValid := false }).thrown =
      some validationFailMsg ∧
    (run { baseEnv with dropboxValid := false }).results.downloads = [] ∧
    (run { baseEnv with dropboxValid := false }).results.uploads = [] ∧
    (run { baseEnv with dropboxValid := false }).results.syncs = [] ∧
    (run { baseEnv with dropboxValid := false }).results.errors =
      [validationFailMsg] :=
  C3_amended { baseEnv with dropboxValid := false } rfl (by decide)

/-! Helper lemmas about all-failed download lists. -/

lemma all_not_succ_any_false (l : List Download)
    (h : l.all (fun d => !d.success) = true) :
    l.any (fun d => d.success) = false := by
  induction l with
  | nil => rfl
  | cons d rest ih =>
    simp only [List.all_cons, Bool.and_eq_true] at h
    have hd : d.success = false := by
      have := h.1
      cases hs : d.success
      · rfl
      · rw [hs] at this; exact absurd this (by simp)
    simp [List.any_cons, hd, ih h.2]

lemma filter_not_succ_length (l : List Download)
    (h : l.all (fun d => !d.success) = true) :
    (l.filter (fun d => !d.success)).length = l.length := by
  rw [List.all_eq_true] at h
  rw [List.filter_eq_self.mpr h]

/-- Claim C5: in every run that completes the pipeline, `success`
equals "at least one download succeeded" (line 197), which depends on
download outcomes only; and if every download failed then `success` is
`false` and the summary's `failed_downloads` equals the number of
targets. -/
theorem C5_success_from_downloads (env : Env)
    (hdone : (run env).thrown = none) :
    (run env).results.success =
      (run env).results.downloads.any (fun d => d.success) ∧
    ((run env).results.downloads.all (fun d => !d.success) = true →
      (run env).results.success = false ∧
      ((run env).results.summary.map (fun s => s.failed_downloads)) =
        some ((run env).results.targets.length)) := by
  cases hic : env.initResult with
  | error msg => simp [run, hic] at hdone
  | ok u =>
    cases u
    by_cases hv : (validateServices env).1 = true
    · cases hrc : env.reportPersist with
      | error msg => simp [run, hic, hv, hrc] at hdone
      | ok p =>
        have hrun : run env = ⟨none, pipelineResults env, pipelineTrace env⟩ := by
          simp [run, hic, hv, hrc]
        rw [hrun]
        refine ⟨by simp [pipelineResults, aggregateStep], ?_⟩
        intro hall
        have hall' :
            (downloadFigmaFiles env env.targets).all (fun d => !d.success) = true := by
          simpa [pipelineResults, aggregateStep] using hall
        refine ⟨?_, ?_⟩
        · simpa [pipelineResults, aggregateStep] using
            all_not_succ_any_false _ hall'
        · have h1 := filter_not_succ_length _ hall'
          simp [pipelineResults, aggregateStep, generateSummary,
            initialResults, h1, downloadFigmaFiles_length]
    · simp [run, hic, hv] at hdone

/-- Witness for C5, at `envAllFail` (both downloads fail). -/
theorem C5_success_from_downloads_witness :
    (run envAllFail).results.success =
      (run envAllFail).results.downloads.any (fun d => d.success) ∧
    ((run envAllFail).results.downloads.all (fun d => !d.success) = true →
      (run envAllFail).results.success = false ∧
      ((run envAllFail).results.summary.map (fun s => s.failed_downloads)) =
        some ((run envAllFail).results.targets.length)) :=
  C5_success_from_downloads envAllFail (by decide)

/-! Sync stage lemmas. -/

lemma uploadGo_calls_of_ok (env : Env)
    (hok : ∀ k, ∃ r, env.dropboxSync k = .ok r) :
    ∀ (ds : List Download) (k : Nat) (ups : List Upload)
      (calls : List (List Download)),
      (uploadGo env ds k ups calls).2 =
        calls ++ (ds.filter sendable).map (fun d => [d]) := by
  intro ds
  induction ds with
  | nil => intro k ups calls; simp [uploadGo]
  | cons d rest ih =>
    intro k ups calls
    by_cases hd : sendable d
    · obtain ⟨r, hr⟩ := hok k
      simp [uploadGo, hd, hr, ih, List.filter_cons]
    · simp [uploadGo, hd, ih, List.filter_cons]

lemma uploadGo_uploads_of_ok (env : Env)
    (hok : ∀ k, ∃ r, env.dropboxSync k = .ok r) :
    ∀ (ds : List Download) (k : Nat) (ups : List Upload)
      (calls : List (List Download)),
      (uploadGo env ds k ups calls).1.length =
        ups.length + (ds.filter sendable).length := by
  intro ds
  induction ds with
  | nil => intro k ups calls; simp [uploadGo]
  | cons d rest ih =>
    intro k ups calls
    by_cases hd : sendable d
    · obtain ⟨r, hr⟩ := hok k
      have hstep : uploadGo env (d :: rest) k ups calls =
          uploadGo env rest (k + 1) (ups ++ [mkUpload d r env.now])
            (calls ++ [[d]]) := by
        simp [uploadGo, hd, hr]
      rw [hstep, ih, List.filter_cons, if_pos hd]
      simp only [List.length_append, List.length_cons, List.length_nil]
      omega
    · have hstep : uploadGo env (d :: rest) k ups calls =
          uploadGo env rest k ups calls := by
        simp [uploadGo, hd]
      rw [hstep, ih, List.filter_cons, if_neg hd]

/-- Claim C6 (amended): with all destinations enabled and a
non-throwing Dropbox client, the Dropbox destination is invoked once
per successful download with a truthy output path — each call carrying
a singleton batch (zero calls when there is no such download, rather
than one empty-batch call), and each call producing exactly one entry
of the uploads array — while Notion and Obsidian each produce exactly
one SyncResult and each receives the entire accumulated results, whose
download list includes the failed downloads as well. -/
theorem C6_amended (env : Env)
    (hinit : env.initResult = .ok ())
    (hval : (validateServices env).1 = true)
    (hdb : env.dropboxEnabled = true)
    (hnotion : env.notionEnabled = true)
    (hobsidian : env.obsidianEnabled = true)
    (hok : ∀ k, ∃ r, env.dropboxSync k = .ok r) :
    (run env).trace.dropboxCalls =
      ((downloadFigmaFiles env env.targets).filter sendable).map (fun d => [d]) ∧
    (run env).results.uploads.length = (run env).trace.dropboxCalls.length ∧
    ((run env).trace.notionArg.map (fun r => r.downloads)) =
      some (downloadFigmaFiles env env.targets) ∧
    ((run env).trace.obsidianArg.map (fun r => r.downloads)) =
      some (downloadFigmaFiles env env.targets) ∧
    (run env).results.syncs =
      [updateNotionDatabase env, syncObsidianVault env] := by
  have hcalls := uploadGo_calls_of_ok env hok (downloadFigmaFiles env env.targets)
    0 [] []
  have huplen := uploadGo_uploads_of_ok env hok (downloadFigmaFiles env env.targets)
    0 [] []
  cases hrc : env.reportPersist with
  | error msg =>
    simp [run, hinit, hval, hrc, pipelineTrace, pipelineResults, aggregateStep,
      catchFail, initialResults, hdb, hnotion, hobsidian, uploadToDropbox,
      hcalls, huplen]
  | ok p =>
    simp [run, hinit, hval, hrc, pipelineTrace, pipelineResults, aggregateStep,
      initialResults, hdb, hnotion, hobsidian, uploadToDropbox, hcalls, huplen]

/-- Witness for C6 (amended), at `envMixed` (one failed and one
successful download, all destinations enabled, Dropbox never throws). -/
theorem C6_amended_witness :
    (run envMixed).trace.dropboxCalls =
      ((downloadFigmaFiles envMixed envMixed.targets).filter sendable).map
        (fun d => [d]) ∧
    (run envMixed).results.uploads.length =
      (run envMixed).trace.dropboxCalls.length ∧
    ((run envMixed).trace.notionArg.map (fun r => r.downloads)) =
      some (downloadFigmaFiles envMixed envMixed.targets) ∧
    ((run envMixed).trace.obsidianArg.map (fun r => r.downloads)) =
      some (downloadFigmaFiles envMixed envMixed.targets) ∧
    (run envMixed).results.syncs =
      [updateNotionDatabase envMixed, syncObsidianVault envMixed] :=
  C6_amended envMixed rfl (by decide) rfl rfl rfl
    (fun k => ⟨⟨true, some "/remote", none⟩, rfl⟩)

/-- Claim C7: a destination whose sync call throws (here Notion) has
the failure caught and recorded as its own failed SyncResult carrying
the error message; the remaining destination (Obsidian) is still
attempted and its SyncResult recorded after it; and the recorded
download results are exactly the download stage's output, unaltered. -/
theorem C7_destination_isolation (env : Env) (msg : String)
    (hinit : env.initResult = .ok ())
    (hval : (validateServices env).1 = true)
    (hnotion : env.notionEnabled = true)
    (hobsidian : env.obsidianEnabled = true)
    (hfail : env.notionSync = .error msg) :
    (run env).results.syncs =
      [⟨"notion", false, none, some msg, env.now⟩, syncObsidianVault env] ∧
    (run env).results.downloads = downloadFigmaFiles env env.targets := by
  cases hrc : env.reportPersist with
  | error m =>
    simp [run, hinit, hval, hrc, pipelineResults, aggregateStep, catchFail,
      initialResults, hnotion, hobsidian, updateNotionDatabase, hfail]
  | ok p =>
    simp [run, hinit, hval, hrc, pipelineResults, aggregateStep,
      initialResults, hnotion, hobsidian, updateNotionDatabase, hfail]

/-- Witness for C7, with Notion throwing in an otherwise healthy run. -/
theorem C7_destination_isolation_witness :
    (run { baseEnv with notionSync := .error "API rate limit" }).results.syncs =
      [⟨"notion", false, none, some "API rate limit", "t0"⟩,
        syncObsidianVault { baseEnv with notionSync := .error "API rate limit" }] ∧
    (run { baseEnv with notionSync := .error "API rate limit" }).results.downloads =
      downloadFigmaFiles { baseEnv with notionSync := .error "API rate limit" }
        { baseEnv with notionSync := .error "API rate limit" }.targets :=
  C7_destination_isolation { baseEnv with notionSync := .error "API rate limit" }
    "API rate limit" rfl (by decide) rfl rfl rfl

/-- Claim C8: the aggregator is a pure function of the accumulated
context: recording the summary leaves every other field of the context
unchanged, recomputing the summary on the updated context yields the
same summary (it never reads the `summary` field), and applying the
aggregation step twice equals applying it once. -/
theorem C8_aggregator_pure (env : Env) (r : Results) :
    aggregateStep env (aggregateStep env r) = aggregateStep env r ∧
    generateSummary env (aggregateStep env r) = generateSummary env r ∧
    (aggregateStep env r).downloads = r.downloads ∧
    (aggregateStep env r).uploads = r.uploads ∧
    (aggregateStep env r).syncs = r.syncs ∧
    (aggregateStep env r).errors = r.errors ∧
    (aggregateStep env r).targets = r.targets ∧
    (aggregateStep env r).success = r.success ∧
    (aggregateStep env r).duration = r.duration ∧
    (aggregateStep env r).start_time = r.start_time ∧
    (aggregateStep env r).end_time = r.end_time ∧
    (aggregateStep env r).execution_id = r.execution_id :=
  ⟨rfl, rfl, rfl, rfl, rfl, rfl, rfl, rfl, rfl, rfl, rfl, rfl⟩

/-! Behaviour of the Dropbox loop under a thrown sync call. -/

lemma uploadGo_throw (env : Env) (msg : String) :
    ∀ (ds : List Download) (k m : Nat) (ups : List Upload)
      (calls : List (List Download)),
      m < (ds.filter sendable).length →
      (∀ j, j < m → ∃ r, env.dropboxSync (k + j) = .ok r) →
      env.dropboxSync (k + m) = .error msg →
      uploadGo env ds k ups calls =
        ([failUpload msg env.now],
          calls ++ (((ds.filter sendable).take (m + 1)).map (fun d => [d]))) := by
  intro ds
  induction ds with
  | nil => intro k m ups calls hm _ _; simp at hm
  | cons d rest ih =>
    intro k m ups calls hm hok herr
    by_cases hd : sendable d
    · rw [List.filter_cons, if_pos hd] at hm ⊢
      cases m with
      | zero =>
        have hk : env.dropboxSync k = .error msg := by simpa using herr
        simp [uploadGo, hd, hk, List.take_succ_cons]
      | succ m =>
        obtain ⟨r, hr⟩ := hok 0 (Nat.succ_pos m)
        have hk : env.dropboxSync k = .ok r := by simpa using hr
        have hm2 : m < (rest.filter sendable).length := by
          simpa using Nat.lt_of_succ_lt_succ hm
        have hok2 : ∀ j, j < m → ∃ r2, env.dropboxSync (k + 1 + j) = .ok r2 := by
          intro j hj
          obtain ⟨r2, hr2⟩ := hok (j + 1) (Nat.succ_lt_succ hj)
          refine ⟨r2, ?_⟩
          rw [show k + 1 + j = k + (j + 1) from by omega]
          exact hr2
        have herr2 : env.dropboxSync (k + 1 + m) = .error msg := by
          rw [show k + 1 + m = k + (m + 1) from by omega]
          exact herr
        have hstep : uploadGo env (d :: rest) k ups calls =
            uploadGo env rest (k + 1) (ups ++ [mkUpload d r env.now])
              (calls ++ [[d]]) := by
          simp [uploadGo, hd, hk]
        rw [hstep, ih (k + 1) m _ _ hm2 hok2 herr2]
        simp [List.take_succ_cons]
    · rw [List.filter_cons, if_neg hd] at hm ⊢
      have hstep : uploadGo env (d :: rest) k ups calls =
          uploadGo env rest k ups calls := by
        simp [uploadGo, hd]
      rw [hstep]
      exact ih k m ups calls hm hok herr

/-- Claim C9: the Dropbox stage is not atomic under a thrown sync call.
If the first `m` calls succeed and call `m` throws (while a forwardable
download remains for it), `uploadToDropbox` returns the single-element
array holding only the failed entry — discarding the `m` upload records
already accumulated — and only the first `m + 1` forwardable downloads
were ever sent to the destination, so the remaining ones are never
attempted. -/
theorem C9_dropbox_upload_not_atomic (env : Env) (downloads : List Download)
    (msg : String) (m : Nat)
    (hm : m < (downloads.filter sendable).length)
    (hok : ∀ j, j < m → ∃ r, env.dropboxSync j = .ok r)
    (herr : env.dropboxSync m = .error msg) :
    (uploadToDropbox env downloads).1 = [failUpload msg env.now] ∧
    (uploadToDropbox env downloads).2 =
      ((downloads.filter sendable).take (m + 1)).map (fun d => [d]) := by
  have h := uploadGo_throw env msg downloads 0 m [] [] hm
    (by intro j hj; simpa using hok j hj) (by simpa using herr)
  rw [uploadToDropbox, h]
  simp

/-- Forwardable successful downloads used by the C9 and C10 witnesses. -/
def dlOk1 : Download := ⟨"u1", true, some ["f"], some "/p1", none, "t0"⟩

def dlOk2 : Download := ⟨"u2", true, some ["f"], some "/p2", none, "t0"⟩

def dlOk3 : Download := ⟨"u3", true, some ["f"], some "/p3", none, "t0"⟩

/-- Environment whose Dropbox client succeeds on call 0 and throws on
every later call. -/
def envC9 : Env :=
  { baseEnv with
      dropboxSync := fun k =>
        if k == 0 then .ok ⟨true, some "/r", none⟩ else .error "dropbox down" }

/-- Witness for C9: three forwardable downloads, first call ok, second
call throws — one upload record is discarded and the third download is
never sent. -/
theorem C9_dropbox_upload_not_atomic_witness :
    (uploadToDropbox envC9 [dlOk1, dlOk2, dlOk3]).1 =
      [failUpload "dropbox down" "t0"] ∧
    (uploadToDropbox envC9 [dlOk1, dlOk2, dlOk3]).2 =
      (([dlOk1, dlOk2, dlOk3].filter sendable).take 2).map (fun d => [d]) :=
  C9_dropbox_upload_not_atomic envC9 [dlOk1, dlOk2, dlOk3] "dropbox down" 1
    (by decide)
    (by
      intro j hj
      have hj0 : j = 0 := by omega
      subst hj0
      exact ⟨⟨true, some "/r", none⟩, rfl⟩)
    rfl

/-! Skipping of successful downloads without a truthy output path. -/

lemma uploadGo_skip (env : Env) (d : Download) (hd : sendable d = false) :
    ∀ (pre post : List Download) (k : Nat) (ups : List Upload)
      (calls : List (List Download)),
      uploadGo env (pre ++ d :: post) k ups calls =
        uploadGo env (pre ++ post) k ups calls := by
  intro pre
  induction pre with
  | nil => intro post k ups calls; simp [uploadGo, hd]
  | cons e pre ih =>
    intro post k ups calls
    rw [List.cons_append, List.cons_append]
    by_cases he : sendable e
    · cases hr : env.dropboxSync k with
      | error msg => simp [uploadGo, he, hr]
      | ok r =>
        have h1 : uploadGo env (e :: (pre ++ d :: post)) k ups calls =
            uploadGo env (pre ++ d :: post) (k + 1)
              (ups ++ [mkUpload e r env.now]) (calls ++ [[e]]) := by
          simp [uploadGo, he, hr]
        have h2 : uploadGo env (e :: (pre ++ post)) k ups calls =
            uploadGo env (pre ++ post) (k + 1)
              (ups ++ [mkUpload e r env.now]) (calls ++ [[e]]) := by
          simp [uploadGo, he, hr]
        rw [h1, h2]
        exact ih post (k + 1) (ups ++ [mkUpload e r env.now]) (calls ++ [[e]])
    · have h1 : uploadGo env (e :: (pre ++ d :: post)) k ups calls =
          uploadGo env (pre ++ d :: post) k ups calls := by
        simp [uploadGo, he]
      have h2 : uploadGo env (e :: (pre ++ post)) k ups calls =
          uploadGo env (pre ++ post) k ups calls := by
        simp [uploadGo, he]
      rw [h1, h2]
      exact ih post k ups calls

/-- Claim C10: a download with `success = true` but a missing or empty
`output_path` is silently skipped by the Dropbox stage — removing it
from the input changes neither the uploads array nor the batches sent
to the destination, so it is never forwarded and yields no entry. -/
theorem C10_pathless_success_skipped (env : Env) (d : Download)
    (pre post : List Download)
    (_hsucc : d.success = true)
    (hpath : d.output_path = none ∨ d.output_path = some "") :
    uploadToDropbox env (pre ++ d :: post) = uploadToDropbox env (pre ++ post) := by
  have hd : sendable d = false := by
    rcases hpath with h | h <;> simp [sendable, h]
  simp only [uploadToDropbox]
  exact uploadGo_skip env d hd pre post 0 [] []

/-- A successful download whose output path is absent. -/
def dlNoPath : Download := ⟨"u4", true, some ["f"], none, none, "t0"⟩

/-- Witness for C10: with two successful downloads of which one lacks
an output path, the uploads array has a single entry — smaller than the
number of successful downloads. -/
theorem C10_pathless_success_skipped_witness :
    (uploadToDropbox baseEnv ([dlOk1] ++ dlNoPath :: []) =
      uploadToDropbox baseEnv ([dlOk1] ++ [])) ∧
    (uploadToDropbox baseEnv ([dlOk1] ++ dlNoPath :: [])).1.length = 1 ∧
    (([dlOk1] ++ dlNoPath :: []).filter (fun d => d.success)).length = 2 :=
  ⟨C10_pathless_success_skipped baseEnv dlNoPath [dlOk1] [] rfl (Or.inl rfl),
    by decide, by decide⟩

end FigmaBackup
